import Mathlib

/-!
Verification of the score-based (diffusion) posterior sampler of the `sbi`
repository: the predictor implementations (`sbi/samplers/score/predictors.py`),
the `Diffuser` orchestrator and the legacy `score_based_sampler`
(`sbi/samplers/score/score.py`).

Modelling conventions.
* Torch tensors and their elementwise arithmetic are modelled pointwise over
  `ℝ`: every operation the predictors perform (`+`, `-`, `*`, `/`, `**`,
  `sqrt`, `clip`) is elementwise, so a single real entry captures the formula.
* Fresh Gaussian draws (`torch.randn_like`, `torch.randn`) are modelled as an
  explicit noise argument `z`; the distributional statement "standard normal"
  is outside the deterministic embedding.
* `torch.clip(x, max=m)` is `min x m`; `torch.sqrt` is `Real.sqrt`.
* Python `assert` failures and `KeyError`s are modelled with `Except String`.
-/

namespace SbiScore

/-- `EulerMaruyama.predict` (predictors.py lines 88-96), pointwise on tensor
entries.  `drift`, `diffusion`, `score` take `(theta, t)`; `z` is the fresh
standard-normal draw `torch.randn_like(theta)`. -/
noncomputable def emPredict (drift diffusion score : ℝ → ℝ → ℝ) (eta : ℝ)
    (theta t1 t0 z : ℝ) : ℝ :=
  let dt := t1 - t0
  let dt_sqrt := Real.sqrt dt
  let f := drift theta t1
  let g := diffusion theta t1
  let s := score theta t1
  let f_backward := f - (1 + eta ^ 2) / 2 * g ^ 2 * s
  let g_backward := eta * g
  theta - f_backward * dt + g_backward * z * dt_sqrt

/-- The Euler-Maruyama step exactly as the specification phrases it:
`dt = t1 - t0`, `f_back = f - (1+eta^2)/2 * g^2 * score`, `g_back = eta * g`,
new state `theta - f_back*dt + g_back*sqrt(dt)*z`. -/
noncomputable def emPredictSpec (drift diffusion score : ℝ → ℝ → ℝ) (eta : ℝ)
    (theta t1 t0 z : ℝ) : ℝ :=
  let dt := t1 - t0
  let f := drift theta t1
  let g := diffusion theta t1
  let s := score theta t1
  let f_back := f - (1 + eta ^ 2) / 2 * g ^ 2 * s
  let g_back := eta * g
  theta - f_back * dt + g_back * Real.sqrt dt * z

/-- `vp_default_bridge` (predictors.py lines 99-101). -/
noncomputable def vp_default_bridge (alpha alpha_new std std_new : ℝ) : ℝ :=
  std_new / std * Real.sqrt (1 - alpha / alpha_new)

/-- `ve_default_bridge` (predictors.py lines 104-106). -/
noncomputable def ve_default_bridge (alpha alpha_new std std_new : ℝ) : ℝ :=
  std_new / std

/-- The clipped bridge noise scale of `DDIM.predict` (predictors.py lines
137-139): `eta * self.std_bridge(...)` followed by `torch.clip(., max=std)`. -/
noncomputable def ddimStdBridgeClipped (eta : ℝ) (bridge : ℝ → ℝ → ℝ → ℝ → ℝ)
    (alpha alpha_new std std_new : ℝ) : ℝ :=
  min (eta * bridge alpha alpha_new std std_new) std

/-- `DDIM.predict` (predictors.py lines 130-155), pointwise on tensor entries.
`alpha_fn` is `mean_t_fn`, `std_fn` is `std_fn`, `score` is the score-based
potential, `bridge` is `self.std_bridge`, `z` the fresh draw
`torch.randn_like(theta)`. -/
noncomputable def ddimPredict (alpha_fn std_fn : ℝ → ℝ) (score : ℝ → ℝ → ℝ)
    (bridge : ℝ → ℝ → ℝ → ℝ → ℝ) (eta : ℝ) (theta t1 t0 z : ℝ) : ℝ :=
  let alpha := alpha_fn t1
  let std := std_fn t1
  let alpha_new := alpha_fn t0
  let std_new := std_fn t0
  let std_bridge := ddimStdBridgeClipped eta bridge alpha alpha_new std std_new
  let s := score theta t1
  let eps_pred := -std * s
  let x0_pred := (theta - std * eps_pred) / alpha
  let bridge_correction := Real.sqrt (std ^ 2 - std_bridge ^ 2) * eps_pred
  let bridge_noise := z * std_bridge
  alpha_new * x0_pred + bridge_correction + bridge_noise

/-- The DDIM step exactly as the specification phrases it: evaluate
`alpha, std` at `t1` and `alpha_new, std_new` at `t0`; clip
`eta * bridge_fn(...)` from above at `std`; `eps_pred = -std*s`;
`x0_pred = (theta - std*eps_pred)/alpha`;
`bridge_correction = sqrt(std^2 - std_bridge^2)*eps_pred`; bridge noise with
standard deviation `std_bridge`; return
`alpha_new*x0_pred + bridge_correction + bridge_noise`. -/
noncomputable def ddimPredictSpec (alpha_fn std_fn : ℝ → ℝ) (score : ℝ → ℝ → ℝ)
    (bridge_fn : ℝ → ℝ → ℝ → ℝ → ℝ) (eta : ℝ) (theta t1 t0 z : ℝ) : ℝ :=
  let alpha := alpha_fn t1
  let std := std_fn t1
  let alpha_new := alpha_fn t0
  let std_new := std_fn t0
  let std_bridge := min (eta * bridge_fn alpha alpha_new std std_new) std
  let s := score theta t1
  let eps_pred := -std * s
  let x0_pred := (theta - std * eps_pred) / alpha
  let bridge_correction := Real.sqrt (std ^ 2 - std_bridge ^ 2) * eps_pred
  let bridge_noise := z * std_bridge
  alpha_new * x0_pred + bridge_correction + bridge_noise

/-- The per-iteration update of the legacy `score_based_sampler`
(score.py lines 125-137), pointwise on tensor entries: the body of the loop
`theta = theta - (f - g**2 * score) * delta_t + g * randn * delta_t_sqrt`
with `f, g, score` evaluated at the current time `t`. -/
noncomputable def legacyScoreUpdate (drift diffusion score : ℝ → ℝ → ℝ)
    (theta t delta_t z : ℝ) : ℝ :=
  let f := drift theta t
  let g := diffusion theta t
  let s := score theta t
  theta - (f - g ^ 2 * s) * delta_t + g * z * Real.sqrt delta_t

/-- C1: for every theta, times `t1 > t0` and `eta > 0`, the Euler-Maruyama
predictor returns exactly `theta - f_back*dt + g_back*sqrt(dt)*z` with
`dt = t1 - t0`, `f_back = f - (1+eta^2)/2 * g^2 * score`, `g_back = eta * g`
and `z` the fresh standard-Gaussian draw.  Proved unconditionally (for all
`eta`, `t1`, `t0`), which subsumes the claim's `t1 > t0`, `eta > 0` case. -/
theorem euler_maruyama_predict_formula
    (drift diffusion score : ℝ → ℝ → ℝ) (eta theta t1 t0 z : ℝ) :
    emPredict drift diffusion score eta theta t1 t0 z =
      emPredictSpec drift diffusion score eta theta t1 t0 z := by
  simp only [emPredict, emPredictSpec]
  ring

/-- C2: for every theta and times `t1 > t0`, the DDIM predictor returns exactly
`alpha_new*x0_pred + bridge_correction + bridge_noise` computed from
`alpha = mean_t_fn(t1)`, `std = std_fn(t1)`, `alpha_new = mean_t_fn(t0)`,
`std_new = std_fn(t0)`, the clipped bridge scale, `eps_pred = -std*s`,
`x0_pred = (theta - std*eps_pred)/alpha`,
`bridge_correction = sqrt(std^2 - std_bridge^2)*eps_pred` and Gaussian bridge
noise of standard deviation `std_bridge`.  Proved unconditionally. -/
theorem ddim_predict_formula
    (alpha_fn std_fn : ℝ → ℝ) (score : ℝ → ℝ → ℝ)
    (bridge : ℝ → ℝ → ℝ → ℝ → ℝ) (eta theta t1 t0 z : ℝ) :
    ddimPredict alpha_fn std_fn score bridge eta theta t1 t0 z =
      ddimPredictSpec alpha_fn std_fn score bridge eta theta t1 t0 z := by
  simp only [ddimPredict, ddimPredictSpec, ddimStdBridgeClipped]

/-- C3: in `DDIM.predict` the clipped bridge scale never exceeds `std`
(unconditionally, by the clip), and whenever `eta` and the bridge value are
nonnegative and `std > 0` (validity of the inputs) the argument of the square
root, `std^2 - std_bridge^2`, is nonnegative — the content, over the
real-number semantics, of the output containing no NaN/Inf. -/
theorem ddim_bridge_clip_safety (eta : ℝ) (bridge : ℝ → ℝ → ℝ → ℝ → ℝ)
    (alpha alpha_new std std_new : ℝ)
    (heta : 0 ≤ eta) (hbr : 0 ≤ bridge alpha alpha_new std std_new)
    (hstd : 0 < std) :
    ddimStdBridgeClipped eta bridge alpha alpha_new std std_new ≤ std ∧
      0 ≤ std ^ 2 -
        (ddimStdBridgeClipped eta bridge alpha alpha_new std std_new) ^ 2 := by
  constructor
  · exact min_le_right _ _
  · have h0 : 0 ≤ ddimStdBridgeClipped eta bridge alpha alpha_new std std_new :=
      le_min (mul_nonneg heta hbr) hstd.le
    have hle : ddimStdBridgeClipped eta bridge alpha alpha_new std std_new ≤ std :=
      min_le_right _ _
    have := pow_le_pow_left₀ h0 hle 2
    linarith

theorem ddim_bridge_clip_safety_witness :
    ddimStdBridgeClipped 1 (fun _ _ _ _ => (1 : ℝ) / 2) 0 0 1 0 ≤ 1 ∧
      0 ≤ (1 : ℝ) ^ 2 -
        (ddimStdBridgeClipped 1 (fun _ _ _ _ => (1 : ℝ) / 2) 0 0 1 0) ^ 2 :=
  ddim_bridge_clip_safety 1 (fun _ _ _ _ => (1 : ℝ) / 2) 0 0 1 0
    zero_le_one one_half_pos.le zero_lt_one

/-- C9: with `eta = 1`, the Euler-Maruyama predictor's update coincides with
the per-iteration update of the legacy `score_based_sampler` when both use the
step size `dt = t1 - t0` and the same Gaussian draw: both compute
`theta - (f - g^2*score)*dt + g*z*sqrt(dt)`, since `(1 + 1^2)/2 = 1`. -/
theorem euler_maruyama_refines_legacy_sampler
    (drift diffusion score : ℝ → ℝ → ℝ) (theta t1 t0 z : ℝ) :
    emPredict drift diffusion score 1 theta t1 t0 z =
      legacyScoreUpdate drift diffusion score theta t1 (t1 - t0) z := by
  simp only [emPredict, legacyScoreUpdate]
  ring

/-! Constructors of the two predictor variants.  `EulerMaruyama.__init__`
(predictors.py lines 69-86) asserts `eta > 0`; `DDIM.__init__` (lines 111-127)
performs no check on `eta` and only selects the bridge function. -/

/-- Configuration stored by a successfully constructed `EulerMaruyama`. -/
structure EMConfig where
  eta : ℝ

/-- Configuration stored by a successfully constructed `DDIM`: `eta` and the
resolved bridge function. -/
structure DDIMConfig where
  eta : ℝ
  bridge : ℝ → ℝ → ℝ → ℝ → ℝ

/-- `EulerMaruyama.__init__` (predictors.py lines 69-86): stores `eta` after
`assert eta > 0, "eta must be positive."`. -/
noncomputable def emInit (eta : ℝ) : Except String EMConfig :=
  if 0 < eta then Except.ok ⟨eta⟩ else Except.error "eta must be positive."

/-- `DDIM.__init__` (predictors.py lines 111-127): stores `eta` unchecked and
resolves the bridge: a supplied `std_bridge` wins, else the VE default when the
score estimator is a `VEScoreEstimator` (`isVE`), else the VP default. -/
noncomputable def ddimInit (isVE : Bool) (std_bridge : Option (ℝ → ℝ → ℝ → ℝ → ℝ))
    (eta : ℝ) : Except String DDIMConfig :=
  Except.ok
    { eta := eta
      bridge :=
        match std_bridge with
        | some b => b
        | none => if isVE then ve_default_bridge else vp_default_bridge }

/-- C4 counterexample: the claim says constructing *every* predictor variant
with `eta ≤ 0` raises a configuration error, but `DDIM.__init__` performs no
`eta` validation: constructing DDIM with `eta = -1 ≤ 0` succeeds. -/
theorem ddim_init_accepts_nonpositive_eta :
    (-1 : ℝ) ≤ 0 ∧ (ddimInit false none (-1)).isOk = true :=
  ⟨by norm_num, rfl⟩

/-- C4 (amended): constructing Euler-Maruyama with `eta ≤ 0` raises a
configuration error at construction time and with `eta > 0` succeeds, while
DDIM performs no `eta` validation: its construction succeeds for every `eta`
(including `eta ≤ 0`). -/
theorem predictor_init_eta_validation :
    (∀ eta : ℝ, eta ≤ 0 → emInit eta = Except.error "eta must be positive.") ∧
      (∀ eta : ℝ, 0 < eta → ∃ c : EMConfig, emInit eta = Except.ok c) ∧
      (∀ (isVE : Bool) (sb : Option (ℝ → ℝ → ℝ → ℝ → ℝ)) (eta : ℝ),
        ∃ c : DDIMConfig, ddimInit isVE sb eta = Except.ok c) := by
  refine ⟨fun eta h => ?_, fun eta h => ⟨⟨eta⟩, ?_⟩, fun isVE sb eta => ⟨_, rfl⟩⟩
  · simp [emInit, not_lt.mpr h]
  · simp [emInit, h]

theorem predictor_init_eta_validation_witness :
    emInit (-2) = Except.error "eta must be positive." ∧
      (∃ c : EMConfig, emInit 2 = Except.ok c) ∧
      (∃ c : DDIMConfig, ddimInit true none (-2) = Except.ok c) :=
  ⟨predictor_init_eta_validation.1 (-2) (by simp),
    predictor_init_eta_validation.2.1 2 two_pos,
    predictor_init_eta_validation.2.2 true none (-2)⟩

/-! The predictor registry (predictors.py lines 12-44): the module-level dict
`PREDICTORS`, `get_predictor` (dict lookup, raising `KeyError` on a missing
name) and the `register_predictor` decorator (asserting that the registered
type is a subclass of `Predictor` before inserting). -/

/-- The predictor implementations defined in predictors.py. -/
inductive PredictorImpl where
  | eulerMaruyama : PredictorImpl
  | ddim : PredictorImpl
deriving DecidableEq, Repr

/-- A candidate type passed to the `register_predictor` decorator: whether it
is a subclass of `Predictor` (the conformance the decorator asserts) and the
implementation it denotes. -/
structure PredictorType where
  subclassOfPredictor : Bool
  impl : PredictorImpl

/-- Dict lookup `PREDICTORS[name]`; first (most recent) insertion wins, which
also models dict re-registration overwrite. -/
def lookupPred (name : String) : List (String × PredictorImpl) → Option PredictorImpl
  | [] => none
  | (k, v) :: rest => if name = k then some v else lookupPred name rest

/-- `register_predictor` (predictors.py lines 27-44): asserts
`issubclass(predictor, Predictor)` and only then inserts into the dict. -/
def register_predictor (name : String) (T : PredictorType)
    (registry : List (String × PredictorImpl)) :
    Except String (List (String × PredictorImpl)) :=
  if T.subclassOfPredictor then Except.ok ((name, T.impl) :: registry)
  else Except.error "Predictor must be a subclass of Predictor."

/-- `get_predictor` (predictors.py lines 15-24): `PREDICTORS[name](...)`; a
missing key raises `KeyError`. -/
def get_predictor (name : String) (registry : List (String × PredictorImpl)) :
    Except String PredictorImpl :=
  match lookupPred name registry with
  | some p => Except.ok p
  | none => Except.error ("KeyError: " ++ name)

/-- The registry `PREDICTORS` after module load: the decorator is applied to
`EulerMaruyama` under the name "euler_maruyma" (line 67) and then to `DDIM`
under "ddim" (line 109); both are subclasses of `Predictor`. -/
def PREDICTORS : List (String × PredictorImpl) :=
  ((register_predictor "euler_maruyma" ⟨true, PredictorImpl.eulerMaruyama⟩ []).bind
    (register_predictor "ddim" ⟨true, PredictorImpl.ddim⟩)).toOption.getD []

/-- C7: looking up a name absent from the predictor registry raises a
`KeyError`, and applying `register_predictor` to a type that is not a subclass
of `Predictor` raises a configuration error at registration time (the registry
is left untouched and no lookup happens). -/
theorem registry_error_handling :
    (∀ (name : String) (registry : List (String × PredictorImpl)),
        lookupPred name registry = none →
          get_predictor name registry = Except.error ("KeyError: " ++ name)) ∧
      (∀ (name : String) (T : PredictorType)
          (registry : List (String × PredictorImpl)),
        T.subclassOfPredictor = false →
          register_predictor name T registry =
            Except.error "Predictor must be a subclass of Predictor.") := by
  constructor
  · intro name registry h
    simp [get_predictor, h]
  · intro name T registry h
    simp [register_predictor, h]

theorem registry_error_handling_witness :
    get_predictor "unknown_sampler" PREDICTORS =
        Except.error ("KeyError: " ++ "unknown_sampler") ∧
      register_predictor "bad" ⟨false, PredictorImpl.ddim⟩ PREDICTORS =
        Except.error "Predictor must be a subclass of Predictor." :=
  ⟨registry_error_handling.1 "unknown_sampler" PREDICTORS rfl,
    registry_error_handling.2 "bad" ⟨false, PredictorImpl.ddim⟩ PREDICTORS rfl⟩

/-- C10: the Euler-Maruyama predictor is registered only under the misspelled
name "euler_maruyma": looking it up constructs the `EulerMaruyama`
implementation, looking up the conventional spelling "euler_maruyama" raises a
`KeyError`, and no other registry entry maps to `EulerMaruyama`. -/
theorem euler_maruyama_registered_misspelled :
    get_predictor "euler_maruyma" PREDICTORS =
        Except.ok PredictorImpl.eulerMaruyama ∧
      get_predictor "euler_maruyama" PREDICTORS =
        Except.error ("KeyError: " ++ "euler_maruyama") ∧
      (PREDICTORS.filter
          (fun p => p.2 = PredictorImpl.eulerMaruyama)).map Prod.fst =
        ["euler_maruyma"] := by
  exact ⟨rfl, rfl, rfl⟩

/-! A shaped-tensor model for `Diffuser.initialize` (score.py lines 66-72),
which is the one place where tensor shapes and numpy/torch-style broadcasting
matter.  A tensor is a shape together with a total function from multi-indices
to entries; `torch.broadcast_tensors` is modelled by the standard right-aligned
broadcast rule (two dimensions are compatible when equal or when one is 1, the
result is their maximum; missing leading dimensions act like 1). -/

/-- A shaped tensor: a shape and the entry at each multi-index. -/
structure STensor where
  shape : List ℕ
  data : List ℕ → ℝ

/-- Broadcast of two single dimensions: equal, or one of them is 1. -/
def bdim (a b : ℕ) : Option ℕ :=
  if a = b then some a else if a = 1 then some b else if b = 1 then some a else none

/-- Broadcast of two shapes given with the trailing dimension first
(i.e. reversed); a missing dimension behaves like 1. -/
def brcRev : List ℕ → List ℕ → Option (List ℕ)
  | [], ys => some ys
  | x :: xs, [] => some (x :: xs)
  | x :: xs, y :: ys => (bdim x y).bind fun d => (brcRev xs ys).map fun rest => d :: rest

/-- Broadcast of two shapes, right-aligned as in torch. -/
def bshape (a b : List ℕ) : Option (List ℕ) :=
  (brcRev a.reverse b.reverse).map List.reverse

/-- The multi-index of the original tensor addressed by a multi-index of the
broadcast result: keep the trailing coordinates and send every dimension of
size 1 to coordinate 0 (torch `expand` semantics). -/
def bcIdx (tshape idx : List ℕ) : List ℕ :=
  List.zipWith (fun d i => if d = 1 then 0 else i) tshape
    (idx.drop (idx.length - tshape.length))

/-- Expand a tensor to a broadcast shape `s`. -/
def expandTo (t : STensor) (s : List ℕ) : STensor :=
  ⟨s, fun idx => t.data (bcIdx t.shape idx)⟩

/-- `torch.broadcast_tensors(a, b, c)`: the common broadcast shape of the
three shapes, each tensor expanded to it; `none` models the raised shape
error when the shapes are incompatible. -/
def broadcast3 (a b c : STensor) : Option (STensor × STensor × STensor) :=
  (bshape a.shape b.shape).bind fun s1 =>
    (bshape s1 c.shape).map fun s => (expandTo a s, expandTo b s, expandTo c s)

/-- The attributes `Diffuser.__init__` caches for `initialize` (score.py lines
17-39): the score estimator's `mean_T` and `std_T`, its `input_shape`, and the
batch shape derived from `x_o`'s shape. -/
structure DiffuserCfg where
  init_mean : STensor
  init_std : STensor
  input_shape : List ℕ
  batch_shape : List ℕ

/-- `Diffuser.initialize` (score.py lines 66-72): `num_batch` is
`batch_shape.numel()`; draw `eps` of shape `(num_batch, num_samples,
*input_shape)` (the draw is the explicit argument `epsData`); broadcast
`init_mean`, `init_std`, `eps` together and return `mean + std * eps`. -/
noncomputable def DiffuserCfg.initParticles (D : DiffuserCfg) (num_samples : ℕ)
    (epsData : List ℕ → ℝ) : Option STensor :=
  let num_batch := D.batch_shape.prod
  let eps : STensor := ⟨num_batch :: num_samples :: D.input_shape, epsData⟩
  (broadcast3 D.init_mean D.init_std eps).map fun mse =>
    ⟨mse.1.shape, fun idx => mse.1.data idx + mse.2.1.data idx * mse.2.2.data idx⟩

/-- A multi-index is valid for a shape when it has one coordinate per
dimension, each strictly below that dimension. -/
def validIdx (idx shape : List ℕ) : Prop :=
  List.Forall₂ (fun i d => i < d) idx shape

theorem bdim_eq_right {x z : ℕ} (h : bdim x z = some z) : x = z ∨ x = 1 := by
  unfold bdim at h
  split_ifs at h with h1 h2 h3 <;> simp_all

theorem bdim_self (z : ℕ) : bdim z z = some z := by
  simp [bdim]

theorem bdim_one_left (z : ℕ) : bdim 1 z = some z := by
  unfold bdim
  split_ifs with h <;> simp_all

theorem bdim_one_right (z : ℕ) : bdim z 1 = some z := by
  unfold bdim
  split_ifs with h h' <;> simp_all

theorem bdim_compat {x y z : ℕ} (hx : bdim x z = some z) (hy : bdim y z = some z) :
    ∃ w, bdim x y = some w ∧ bdim w z = some z := by
  rcases bdim_eq_right hx with h1 | h1 <;> rcases bdim_eq_right hy with h2 | h2
  · exact ⟨z, by rw [h1, h2]; exact bdim_self z, bdim_self z⟩
  · exact ⟨z, by rw [h1, h2]; exact bdim_one_right z, bdim_self z⟩
  · exact ⟨z, by rw [h1, h2]; exact bdim_one_left z, bdim_self z⟩
  · exact ⟨1, by rw [h1, h2]; exact bdim_self 1, bdim_one_left z⟩

theorem brcRev_compat :
    ∀ (ra rb re : List ℕ), brcRev ra re = some re → brcRev rb re = some re →
      ∃ rc, brcRev ra rb = some rc ∧ brcRev rc re = some re
  | [], rb, _, _, hb => ⟨rb, rfl, hb⟩
  | x :: xs, [], _, ha, _ => ⟨x :: xs, rfl, ha⟩
  | x :: xs, y :: ys, [], ha, _ => by simp [brcRev] at ha
  | x :: xs, y :: ys, z :: zs, ha, hb => by
    simp only [brcRev, Option.bind_eq_some, Option.map_eq_some',
      List.cons.injEq] at ha hb
    obtain ⟨dx, hdx, rx, hrx, hdx2, hrx2⟩ := ha
    obtain ⟨dy, hdy, ry, hry, hdy2, hry2⟩ := hb
    rw [hdx2] at hdx
    rw [hrx2] at hrx
    rw [hdy2] at hdy
    rw [hry2] at hry
    obtain ⟨w, hw, hwz⟩ := bdim_compat hdx hdy
    obtain ⟨rc, hrc, hrcz⟩ := brcRev_compat xs ys zs hrx hry
    refine ⟨w :: rc, ?_, ?_⟩
    · simp [brcRev, hw, hrc]
    · simp [brcRev, hwz, hrcz]

theorem bshape_some_right {a e : List ℕ} (h : bshape a e = some e) :
    brcRev a.reverse e.reverse = some e.reverse := by
  unfold bshape at h
  obtain ⟨r, hr, hre⟩ := Option.map_eq_some'.mp h
  have : r = e.reverse := by
    rw [← hre, List.reverse_reverse]
  rwa [this] at hr

theorem bshape_compat {a b e : List ℕ}
    (ha : bshape a e = some e) (hb : bshape b e = some e) :
    ∃ c, bshape a b = some c ∧ bshape c e = some e := by
  obtain ⟨rc, hrc, hrce⟩ :=
    brcRev_compat a.reverse b.reverse e.reverse (bshape_some_right ha)
      (bshape_some_right hb)
  refine ⟨rc.reverse, ?_, ?_⟩
  · unfold bshape
    rw [hrc]
    rfl
  · unfold bshape
    rw [List.reverse_reverse, hrce, Option.map_some', List.reverse_reverse]

theorem zipWith_one_to_zero {idx shape : List ℕ} (h : validIdx idx shape) :
    List.zipWith (fun d i => if d = 1 then 0 else i) shape idx = idx := by
  induction h with
  | nil => rfl
  | cons hid htl ih =>
    rename_i i d idx' shape'
    simp only [List.zipWith_cons_cons, ih]
    by_cases hd : d = 1
    · subst hd
      simp [Nat.lt_one_iff.mp hid]
    · simp [hd]

theorem bcIdx_valid_self {idx shape : List ℕ} (h : validIdx idx shape) :
    bcIdx shape idx = idx := by
  have hlen : idx.length = shape.length := List.Forall₂.length_eq h
  unfold bcIdx
  rw [hlen, Nat.sub_self, List.drop_zero]
  exact zipWith_one_to_zero h

/-- C6: for every `num_samples ≥ 1`, whenever the cached initial mean and std
broadcast against the noise draw without enlarging it (valid batch shapes),
`Diffuser.initialize(num_samples)` returns a tensor of shape
`(num_batch, num_samples, *input_shape)` with `num_batch` the number of
elements of the cached batch shape, whose entry at every valid index is
`init_mean + init_std * eps` with mean and std read through broadcasting. -/
theorem diffuser_init_shape_value (D : DiffuserCfg) (num_samples : ℕ)
    (epsData : List ℕ → ℝ) (hns : 1 ≤ num_samples)
    (hm : bshape D.init_mean.shape
        (D.batch_shape.prod :: num_samples :: D.input_shape) =
      some (D.batch_shape.prod :: num_samples :: D.input_shape))
    (hs : bshape D.init_std.shape
        (D.batch_shape.prod :: num_samples :: D.input_shape) =
      some (D.batch_shape.prod :: num_samples :: D.input_shape)) :
    ∃ t : STensor, D.initParticles num_samples epsData = some t ∧
      t.shape = D.batch_shape.prod :: num_samples :: D.input_shape ∧
      ∀ idx : List ℕ, validIdx idx t.shape →
        t.data idx = D.init_mean.data (bcIdx D.init_mean.shape idx) +
          D.init_std.data (bcIdx D.init_std.shape idx) * epsData idx := by
  obtain ⟨c, h1, h2⟩ := bshape_compat hm hs
  refine ⟨⟨D.batch_shape.prod :: num_samples :: D.input_shape,
    fun idx => D.init_mean.data (bcIdx D.init_mean.shape idx) +
      D.init_std.data (bcIdx D.init_std.shape idx) *
        epsData (bcIdx (D.batch_shape.prod :: num_samples :: D.input_shape) idx)⟩,
    ?_, rfl, ?_⟩
  · simp only [DiffuserCfg.initParticles, broadcast3, h1, Option.some_bind, h2,
      Option.map_some']
    rfl
  · intro idx hidx
    dsimp only at hidx ⊢
    rw [bcIdx_valid_self hidx]

theorem diffuser_init_shape_value_witness :
    ∃ t : STensor,
      DiffuserCfg.initParticles ⟨⟨[], fun _ => 0⟩, ⟨[], fun _ => 1⟩, [2], [3]⟩ 4
          (fun _ => 0) = some t ∧
        t.shape = [3, 4, 2] ∧
        ∀ idx : List ℕ, validIdx idx t.shape →
          t.data idx = 0 + 1 * 0 :=
  diffuser_init_shape_value ⟨⟨[], fun _ => 0⟩, ⟨[], fun _ => 1⟩, [2], [3]⟩ 4
    (fun _ => 0) (by decide) rfl rfl

/-! The `Diffuser` integration loop `run` (score.py lines 74-88).  The
predictor and the optional corrector are abstract one-step maps on particle
batches (each predictor call internally draws its own fresh noise, which is
part of the abstract map). -/

/-- The corrector application inside the loop: `if self.corrector is not None:
theta = self.corrector(theta, t0)` (score.py lines 86-87). -/
def applyCorrector {α : Type} (corrector : Option (α → ℝ → α)) (theta : α)
    (t0 : ℝ) : α :=
  match corrector with
  | none => theta
  | some c => c theta t0

/-- The body of `run`'s loop from `for i in pbar:` on (score.py lines 82-87):
`t1` is the previously visited time `ts[i-1]`, the remaining list holds
`ts[i], ts[i+1], ...`; each iteration applies the predictor from `t1` to the
current `t0` and then the optional corrector at `t0`. -/
def runSteps {α : Type} (predictor : α → ℝ → ℝ → α)
    (corrector : Option (α → ℝ → α)) : α → ℝ → List ℝ → α
  | theta, _, [] => theta
  | theta, t1, t0 :: rest =>
      runSteps predictor corrector
        (applyCorrector corrector (predictor theta t1 t0) t0) t0 rest

/-- The loop of `run` over the whole schedule `ts`: indices `i` run from 1 to
`ts.numel() - 1` with `t1 = ts[i-1]`, `t0 = ts[i]`. -/
def runLoop {α : Type} (predictor : α → ℝ → ℝ → α)
    (corrector : Option (α → ℝ → α)) (theta : α) (ts : List ℝ) : α :=
  match ts with
  | [] => theta
  | t :: rest => runSteps predictor corrector theta t rest

/-- `Diffuser.run` (score.py lines 74-88): `theta = self.initialize(
num_samples)`, then the predictor/corrector loop over `ts`, returning the
final particle batch (`none` models the shape error `initialize` can raise). -/
noncomputable def DiffuserCfg.run (D : DiffuserCfg) (num_samples : ℕ)
    (epsData : List ℕ → ℝ) (predictor : STensor → ℝ → ℝ → STensor)
    (corrector : Option (STensor → ℝ → STensor)) (ts : List ℝ) :
    Option STensor :=
  (D.initParticles num_samples epsData).map fun theta =>
    runLoop predictor corrector theta ts

theorem runSteps_eq_foldl {α : Type} (predictor : α → ℝ → ℝ → α)
    (corrector : Option (α → ℝ → α)) :
    ∀ (rest : List ℝ) (t1 : ℝ) (theta : α),
      runSteps predictor corrector theta t1 rest =
        List.foldl
          (fun th p => applyCorrector corrector (predictor th p.1 p.2) p.2)
          theta ((t1 :: rest).zip rest)
  | [], _, _ => rfl
  | t0 :: rest, t1, theta => by
    simp only [runSteps, List.zip_cons_cons, List.foldl_cons]
    exact runSteps_eq_foldl predictor corrector rest t0 _

/-- C5: `Diffuser.run(num_samples, ts)` first calls `initialize(num_samples)`
and then folds the predictor over the consecutive pairs `(ts[i-1], ts[i])` in
order, applying the configured corrector at `ts[i]` immediately after each
predictor step, returning the final batch; for a two-element schedule
`[a, b]` this is exactly one predictor application (from `a` to `b`) followed
by exactly one corrector application (at `b`) when a corrector is
configured, and none otherwise. -/
theorem diffuser_run_loop_structure (D : DiffuserCfg) (num_samples : ℕ)
    (epsData : List ℕ → ℝ) (predictor : STensor → ℝ → ℝ → STensor)
    (corrector : Option (STensor → ℝ → STensor)) :
    (∀ ts : List ℝ,
        D.run num_samples epsData predictor corrector ts =
          (D.initParticles num_samples epsData).map fun theta =>
            List.foldl
              (fun th p => applyCorrector corrector (predictor th p.1 p.2) p.2)
              theta (ts.zip ts.tail)) ∧
      (∀ a b : ℝ,
        D.run num_samples epsData predictor corrector [a, b] =
          (D.initParticles num_samples epsData).map fun theta =>
            applyCorrector corrector (predictor theta a b) b) := by
  constructor
  · intro ts
    cases ts with
    | nil => rfl
    | cons t rest =>
      simp only [DiffuserCfg.run, runLoop, List.tail_cons,
        runSteps_eq_foldl predictor corrector]
  · intro a b
    rfl

/-! `Diffuser` construction (score.py lines 17-64): `set_predictor` resolves a
string through the predictor registry or takes the instance as is;
`set_corrector` accepts `None`, a registry name (resolved by `get_corrector`
from the corrector registry, whose module is outside the analysed sources and
is therefore kept as an abstract argument), or an ad hoc object, whose bound
method `correct` must take exactly two arguments `(theta, t0)` — checked via
`inspect.signature` with a failing `assert` otherwise. -/

/-- An ad hoc corrector object as `set_corrector` sees it: all that the
signature check reads is the number of parameters of its bound method
`correct` (`self` excluded, as `inspect.signature` of a bound method does). -/
structure AdHocCorrector where
  numCorrectParams : ℕ

/-- The `corrector` argument of `Diffuser.__init__` when not `None`. -/
inductive CorrectorArg where
  | byName : String → CorrectorArg
  | adhoc : AdHocCorrector → CorrectorArg

/-- What `self.corrector` holds after a successful `set_corrector`. -/
inductive CorrectorResolved where
  | registered : String → CorrectorResolved
  | adhoc : AdHocCorrector → CorrectorResolved

/-- `Diffuser.set_corrector` (score.py lines 51-64).  `getCorr` abstracts
`get_corrector` of the (external) corrector registry module. -/
def set_corrector (getCorr : String → Except String CorrectorResolved) :
    Option CorrectorArg → Except String (Option CorrectorResolved)
  | none => Except.ok none
  | some (CorrectorArg.byName s) => (getCorr s).map some
  | some (CorrectorArg.adhoc c) =>
      if c.numCorrectParams = 2 then Except.ok (some (CorrectorResolved.adhoc c))
      else Except.error
        "The corrector must have the signature correct(self, theta, t0)."

/-- The parts of a constructed `Diffuser` the corrector claims need. -/
structure DiffuserObj where
  predictor : PredictorImpl
  corrector : Option CorrectorResolved

/-- `Diffuser.__init__` (score.py lines 17-39): `set_predictor` (registry
lookup for a string, the instance itself otherwise) followed by
`set_corrector`; any assertion failure aborts construction before
`initialize` or any predictor/corrector step can run. -/
def mkDiffuser (getCorr : String → Except String CorrectorResolved)
    (registry : List (String × PredictorImpl))
    (predictor : String ⊕ PredictorImpl) (corrector : Option CorrectorArg) :
    Except String DiffuserObj :=
  (match predictor with
    | Sum.inl name => get_predictor name registry
    | Sum.inr inst => Except.ok inst).bind fun p =>
    (set_corrector getCorr corrector).map fun c => ⟨p, c⟩

/-- C8: constructing a `Diffuser` with an ad hoc corrector whose `correct`
method does not take exactly two arguments `(theta, t0)` fails during
`set_corrector` with a configuration error, before `initialize` or any
predictor/corrector step runs; with exactly two arguments the corrector is
accepted and construction succeeds. -/
theorem diffuser_adhoc_corrector_signature
    (getCorr : String → Except String CorrectorResolved)
    (registry : List (String × PredictorImpl)) (p : PredictorImpl)
    (c : AdHocCorrector) :
    (c.numCorrectParams ≠ 2 →
        mkDiffuser getCorr registry (Sum.inr p)
            (some (CorrectorArg.adhoc c)) =
          Except.error
            "The corrector must have the signature correct(self, theta, t0).") ∧
      (c.numCorrectParams = 2 →
        mkDiffuser getCorr registry (Sum.inr p)
            (some (CorrectorArg.adhoc c)) =
          Except.ok ⟨p, some (CorrectorResolved.adhoc c)⟩) := by
  constructor
  · intro h
    simp [mkDiffuser, set_corrector, h, Except.bind, Except.map]
  · intro h
    simp [mkDiffuser, set_corrector, h, Except.bind, Except.map]

theorem diffuser_adhoc_corrector_signature_witness :
    (mkDiffuser (fun _ => Except.error "") PREDICTORS
        (Sum.inr PredictorImpl.eulerMaruyama)
        (some (CorrectorArg.adhoc ⟨3⟩)) =
      Except.error
        "The corrector must have the signature correct(self, theta, t0).") ∧
      (mkDiffuser (fun _ => Except.error "") PREDICTORS
          (Sum.inr PredictorImpl.eulerMaruyama)
          (some (CorrectorArg.adhoc ⟨2⟩)) =
        Except.ok ⟨PredictorImpl.eulerMaruyama,
          some (CorrectorResolved.adhoc ⟨2⟩)⟩) :=
  ⟨(diffuser_adhoc_corrector_signature (fun _ => Except.error "") PREDICTORS
      PredictorImpl.eulerMaruyama ⟨3⟩).1 (by decide),
    (diffuser_adhoc_corrector_signature (fun _ => Except.error "") PREDICTORS
      PredictorImpl.eulerMaruyama ⟨2⟩).2 rfl⟩

end SbiScore
